import Mathlib

/- Shallow embedding of the telemetry ingestion and energy accounting engine of
PDUControllerJF.py. Python floats are modelled as rationals, the Python lists of
length 6 and 7 in the output dictionary as total functions from Nat to the value
type (only indices 0 to 6 are ever accessed by the embedded code, matching the
guarded accesses of the source), and a Python exception as the error case of
Except. Strings are treated as ASCII. -/

/-- Outcome of a Python statement that may raise: an index error from reading a
missing list element, or a value error from the float conversion. -/
inductive PyError
  | indexError
  | valueError
  deriving DecidableEq

/-- Warnings emitted through log.warning inside parse_telemetry, one constructor
per call site (PDUControllerJF.py lines 688, 695, 720, 729, 731, 735, 753, 755). -/
inductive Warning
  | tmTooShort
  | timestampDecodeError
  | srvcsetTooShort
  | srvcsetOutOfRange
  | srvcsetBadIndex
  | statusTooShort
  | statusOutOfRange
  | statusBadIndex
  deriving DecidableEq

/-- State owned by the engine: the global output dictionary with its keys
current, last_update_time, accumulated_Wh and is_on, plus the global in_flight
flag (PDUControllerJF.py, main, lines 320 to 328). Indices 0 to 5 are the six
channels S1 to S6 and index 6 is the heater pseudo channel, as in the source
where the constant for the heater index is 6. -/
structure EngineState where
  current : ℕ → ℚ
  last_update_time : ℕ → ℚ
  accumulated_Wh : ℕ → ℚ
  is_on : ℕ → Bool
  in_flight : Bool

/-- Battery configuration, from the global battery dictionary (line 322 and the
settings copied over it in lines 340 to 343). -/
structure Battery where
  nominal_voltage : ℚ
  heaters_consumption : ℚ
  max_wh : ℚ

/-- Default battery values from line 322 of the source. -/
def default_battery : Battery :=
  { nominal_voltage := 28, heaters_consumption := 9 / 10, max_wh := 3750 }

/-- Initial engine state (main, lines 320 to 328): currents, watermarks and
accumulators all zero, every channel off, not in flight. -/
def initial_state : EngineState :=
  { current := fun _ => 0
    last_update_time := fun _ => 0
    accumulated_Wh := fun _ => 0
    is_on := fun _ => false
    in_flight := false }

/-- External parsing collaborators called by parse_telemetry. The field
parse_iso models the composition of datetime.fromisoformat and timestamp used
on line 693, with none meaning the call raised, in which case the source logs a
warning and substitutes the receive instant. The field parse_float models the
float conversion on line 742, with none meaning a value error. -/
structure Codec where
  parse_iso : String → Option ℚ
  parse_float : String → Option ℚ

/-- Model of the Python str.isdigit test on ASCII strings: nonempty and all
characters decimal digits. -/
def str_isdigit (s : String) : Bool :=
  !s.data.isEmpty && s.data.all Char.isDigit

/-- Numeric value of a decimal digit string, the int conversion the source
applies only after an isdigit guard. -/
def str_to_nat (s : String) : ℕ :=
  s.data.foldl (fun n c => 10 * n + (c.toNat - 48)) 0

/-- Timestamp decode of lines 692 to 696: the decoded packet time when the
collaborator succeeds, otherwise the receive instant together with the decode
warning. -/
def ts_decoded (cdc : Codec) (now : ℚ) (tsField : String) : ℚ × List Warning :=
  match cdc.parse_iso tsField with
  | some v => (v, [])
  | none => (now, [Warning.timestampDecodeError])

/-- Embedding of parse_telemetry (PDUControllerJF.py lines 678 to 771) applied
to an already split packet; the split itself is py_split below. Control flow is
kept line by line: the length check of line 687, the timestamp decode with
fallback of lines 692 to 696, the early return for sources other than PDU with
its flight event handling of lines 699 to 715 (where reading the missing fourth
field of an EVENT packet raises), and the SRVCSET and STATUS dispatch of lines
717 to 755 (where the float conversion of the amps field may raise). -/
def parse_packet (cdc : Codec) (now : ℚ) (bat : Battery) (st : EngineState)
    (packet : List String) : Except PyError (EngineState × List Warning) :=
  match packet with
  | src :: tsField :: header :: rest =>
    let tw := ts_decoded cdc now tsField
    let t := tw.1
    let ws := tw.2
    if src = "PDU" then
      if header = "SRVCSET" then
        match rest with
        | sid :: sstate :: _ =>
          if str_isdigit sid then
            let index := str_to_nat sid
            if 1 ≤ index ∧ index ≤ 6 then
              Except.ok ({ st with is_on := Function.update st.is_on (index - 1) (sstate == "1") }, ws)
            else
              Except.ok (st, ws ++ [Warning.srvcsetOutOfRange])
          else
            Except.ok (st, ws ++ [Warning.srvcsetBadIndex])
        | _ => Except.ok (st, ws ++ [Warning.srvcsetTooShort])
      else if header = "STATUS" then
        match rest with
        | sid :: value :: _ =>
          if str_isdigit sid then
            let index := str_to_nat sid
            if 1 ≤ index ∧ index ≤ 6 then
              match cdc.parse_float value with
              | some amps =>
                let i := index - 1
                let acc :=
                  if 0 < st.last_update_time i then
                    Function.update st.accumulated_Wh i
                      (st.accumulated_Wh i +
                        amps * ((t - st.last_update_time i) / 3600) * bat.nominal_voltage)
                  else st.accumulated_Wh
                Except.ok ({ st with
                              current := Function.update st.current i amps
                              accumulated_Wh := acc
                              last_update_time := Function.update st.last_update_time i t }, ws)
              | none => Except.error PyError.valueError
            else Except.ok (st, ws ++ [Warning.statusOutOfRange])
          else Except.ok (st, ws ++ [Warning.statusBadIndex])
        | _ => Except.ok (st, ws ++ [Warning.statusTooShort])
      else Except.ok (st, ws)
    else
      if header = "EVENT" then
        match rest with
        | arg :: _ =>
          if arg = "START_FLIGHT" then
            Except.ok ({ st with
                          in_flight := true
                          last_update_time := Function.update st.last_update_time 6 t }, ws)
          else if arg = "END_FLIGHT" ∧ 0 < st.last_update_time 6 then
            let delta := t - st.last_update_time 6
            let acc :=
              if 0 < delta then
                st.accumulated_Wh 6 +
                  bat.heaters_consumption * (delta / 3600) * bat.nominal_voltage
              else st.accumulated_Wh 6
            Except.ok ({ st with
                          in_flight := false
                          accumulated_Wh := Function.update st.accumulated_Wh 6 acc
                          last_update_time := Function.update st.last_update_time 6 0 }, ws)
          else Except.ok (st, ws)
        | [] => Except.error PyError.indexError
      else Except.ok (st, ws)
  | _ => Except.ok (st, [Warning.tmTooShort])

/-- Comma split of Python str.split applied on a list of characters: the empty
string splits to one empty field, and every comma opens a new field. -/
def py_split_chars : List Char → List (List Char)
  | [] => [[]]
  | c :: rest =>
    let r := py_split_chars rest
    if c = ',' then [] :: r
    else
      match r with
      | h :: tl => (c :: h) :: tl
      | [] => [[c]]

/-- Comma split of a raw packet string, line 685 of the source. -/
def py_split (s : String) : List String :=
  (py_split_chars s.data).map fun cs => String.mk cs

/-- Full embedding of parse_telemetry on a raw packet string. -/
def parse_telemetry (cdc : Codec) (now : ℚ) (bat : Battery) (st : EngineState)
    (raw : String) : Except PyError (EngineState × List Warning) :=
  parse_packet cdc now bat st (py_split raw)

/-- State after feeding one packet through parse_telemetry the way the main
loop does (lines 450 to 462): the call sits inside a bare try block whose
except clause does nothing, so an exception leaves the engine state untouched. -/
def run_parse (cdc : Codec) (now : ℚ) (bat : Battery) (st : EngineState)
    (packet : List String) : EngineState :=
  match parse_packet cdc now bat st packet with
  | Except.ok p => p.1
  | Except.error _ => st

/-- Warnings produced by one packet on the non raising path; on an exception
the list is not observed by the claims and is returned empty. -/
def run_warnings (cdc : Codec) (now : ℚ) (bat : Battery) (st : EngineState)
    (packet : List String) : List Warning :=
  match parse_packet cdc now bat st packet with
  | Except.ok p => p.2
  | Except.error _ => []

/-- Flight toggle handler from the main event loop (lines 485 to 494). Ending a
flight through the button stores the toggle time as the heater watermark and
adds no energy; starting through the button only flips the flag. -/
def flight_toggle (now : ℚ) (st : EngineState) : EngineState :=
  if st.in_flight then
    { st with
        in_flight := false
        last_update_time := Function.update st.last_update_time 6 now }
  else
    { st with in_flight := true }

/-- Group limit evaluation from refresh_telemetry_stats_on_gui (lines 820 to
828): true means the warn colour is applied; when the limit is not positive the
source skips the colour update entirely, so a warn is never signalled there. -/
def evaluate_limit (limit wh : ℚ) : Bool :=
  if 0 < limit then
    if limit - wh ≤ limit * 0.1 then true else false
  else false

/-- Offset reading in the battery section of refresh_telemetry_stats_on_gui
(lines 874 to 878): the text box contributes only when nonempty and made of
digits only, otherwise the offset stays zero. -/
def gui_offset (offText : String) : ℚ :=
  if offText = "" then 0
  else if str_isdigit offText then (str_to_nat offText : ℚ) else 0

/-- Battery usage total (lines 866 to 878): the six channel accumulators added
one by one, then the heater accumulator, then the offset read from the GUI. -/
def battery_total_used (st : EngineState) (offText : String) : ℚ :=
  st.accumulated_Wh 0 + st.accumulated_Wh 1 + st.accumulated_Wh 2 +
    st.accumulated_Wh 3 + st.accumulated_Wh 4 + st.accumulated_Wh 5 +
    st.accumulated_Wh 6 + gui_offset offText

/-- Remaining battery energy (line 879), never clamped here. -/
def battery_progress_wh (bat : Battery) (st : EngineState) (offText : String) : ℚ :=
  bat.max_wh - battery_total_used st offText

/-- Python int conversion of a float: truncation toward zero. -/
def int_trunc (q : ℚ) : ℤ :=
  Int.tdiv q.num (q.den : ℤ)

/-- Remaining battery percentage as the source computes it on line 881. -/
def battery_percent (bat : Battery) (st : EngineState) (offText : String) : ℤ :=
  int_trunc (battery_progress_wh bat st offText / bat.max_wh * 100)

/-- Progress bar value with the clamp of lines 883 to 888, the only place the
percentage is clamped. -/
def battery_bar (bat : Battery) (st : EngineState) (offText : String) : ℤ :=
  if 100 < battery_percent bat st offText then 100
  else if battery_percent bat st offText < 0 then 0
  else battery_percent bat st offText

/-- Sum of the six channel accumulators written as a fold over a range, the
phrasing used by the specification for the battery budget. -/
def channels_wh_sum (st : EngineState) : ℚ :=
  ∑ i ∈ Finset.range 6, st.accumulated_Wh i

/-- Proposition that two engine states agree on everything a channel owns:
the current and on flag arrays, and the watermark and accumulator entries of
the six channel indices. -/
def channels_unchanged (a b : EngineState) : Prop :=
  a.current = b.current ∧ a.is_on = b.is_on ∧
    ∀ i : ℕ, i < 6 →
      a.last_update_time i = b.last_update_time i ∧
        a.accumulated_Wh i = b.accumulated_Wh i

/-- Numeric value of a digit list, used by the concrete decimal parser. -/
def digits_val (cs : List Char) : ℕ :=
  cs.foldl (fun n c => 10 * n + (c.toNat - 48)) 0

/-- Unsigned part of the concrete decimal parser: digits, optionally followed
by a point and more digits, with at least one digit overall. -/
def parse_decimal_body (cs : List Char) : Option ℚ :=
  let intPart := cs.takeWhile Char.isDigit
  let restPart := cs.dropWhile Char.isDigit
  match restPart with
  | [] => if intPart.isEmpty then none else some (digits_val intPart : ℚ)
  | c :: frac =>
    if c = '.' && frac.all Char.isDigit && (!intPart.isEmpty || !frac.isEmpty) then
      some ((digits_val intPart : ℚ) + (digits_val frac : ℚ) / (10 : ℚ) ^ frac.length)
    else none

/-- Concrete decimal parser used to instantiate the float collaborator in
closed computations: optional sign, then digits with an optional fraction. -/
def parse_decimal (s : String) : Option ℚ :=
  match s.data with
  | '-' :: r => (parse_decimal_body r).map fun q => -q
  | '+' :: r => parse_decimal_body r
  | r => parse_decimal_body r

/-- Concrete timestamp collaborator for closed computations: a digit string is
read as a count of seconds, anything else fails to decode. -/
def digit_timestamp (s : String) : Option ℚ :=
  if str_isdigit s then some (str_to_nat s : ℚ) else none

/-- Codec instance used by the closed computations below. -/
def test_codec : Codec :=
  { parse_iso := digit_timestamp, parse_float := parse_decimal }

/-- State with channel 1 (index 0) last sampled at time 7200 holding 100 Wh. -/
def st_skew : EngineState :=
  { initial_state with
      last_update_time := Function.update initial_state.last_update_time 0 7200
      accumulated_Wh := Function.update initial_state.accumulated_Wh 0 100 }

/-- State in flight with the heater watermark armed at 3600 and 50 Wh already
accumulated on the heater. -/
def st_inflight : EngineState :=
  { initial_state with
      in_flight := true
      last_update_time := Function.update initial_state.last_update_time 6 3600
      accumulated_Wh := Function.update initial_state.accumulated_Wh 6 50 }

/-- State with 100 Wh consumed on channel 1 and nothing else. -/
def st_used : EngineState :=
  { initial_state with
      accumulated_Wh := Function.update initial_state.accumulated_Wh 0 100 }

/-- State with channel 2 (index 1) last sampled at 3600 holding 10 Wh. -/
def st_sampled : EngineState :=
  { initial_state with
      last_update_time := Function.update initial_state.last_update_time 1 3600
      accumulated_Wh := Function.update initial_state.accumulated_Wh 1 10 }

/-- Claim C9: the group limit evaluation warns exactly when the limit is
positive and the remaining headroom is at most a tenth of the limit, and is ok
in every other case, in particular whenever the limit is not positive. -/
theorem c9_evaluate_limit (limit wh : ℚ) :
    evaluate_limit limit wh = true ↔ 0 < limit ∧ limit - wh ≤ 0.1 * limit := by
  have h01 : (0.1 : ℚ) = 1 / 10 := by norm_num
  unfold evaluate_limit
  by_cases h1 : 0 < limit
  · by_cases h2 : limit - wh ≤ limit * 0.1
    · rw [if_pos h1, if_pos h2]
      exact ⟨fun _ => ⟨h1, by rw [h01] at h2 ⊢; linarith⟩, fun _ => rfl⟩
    · rw [if_pos h1, if_neg h2]
      refine ⟨fun hfalse => absurd hfalse Bool.false_ne_true, fun hc => absurd ?_ h2⟩
      have hle := hc.2
      rw [h01] at hle ⊢
      linarith
  · rw [if_neg h1]
    exact ⟨fun hfalse => absurd hfalse Bool.false_ne_true, fun hc => absurd hc.1 h1⟩

/-- Claim C7, counterexample: with 100 Wh used on channel 1 and a manual offset
of minus 100 Wh typed in the offset box, the source reports 3650 Wh remaining
instead of the 3750 Wh the claim formula demands, because the isdigit guard
silently drops the negative offset. -/
theorem c7_counterexample :
    battery_progress_wh default_battery st_used "-100" ≠
      default_battery.max_wh -
        (channels_wh_sum st_used + st_used.accumulated_Wh 6 + (-100)) := by
  simp [battery_progress_wh, battery_total_used, gui_offset, str_isdigit,
    channels_wh_sum, st_used, initial_state, default_battery, Function.update,
    Finset.sum_range_succ]

/-- Claim C7 (amended): the battery recompute yields remaining watt hours equal
to capacity minus the sum of the six channel accumulators, the heater
accumulator and the offset, where the offset contributes only when the offset
box holds a nonempty digit string (negative and non integer entries count as
zero); the percentage is the truncated integer percentage of capacity, and the
clamp to the range 0 to 100 is applied only at the progress bar display. -/
theorem c7_battery_budget (bat : Battery) (st : EngineState) (offText : String) :
    battery_progress_wh bat st offText =
      bat.max_wh - (channels_wh_sum st + st.accumulated_Wh 6 + gui_offset offText) ∧
    battery_percent bat st offText =
      int_trunc (battery_progress_wh bat st offText * 100 / bat.max_wh) ∧
    battery_bar bat st offText = max 0 (min 100 (battery_percent bat st offText)) := by
  refine ⟨?_, ?_, ?_⟩
  · simp only [battery_progress_wh, battery_total_used, channels_wh_sum,
      Finset.sum_range_succ, Finset.sum_range_zero]
    ring
  · unfold battery_percent
    congr 1
    ring
  · unfold battery_bar
    rcases lt_or_le 100 (battery_percent bat st offText) with h1 | h1
    · rw [if_pos h1, min_eq_left h1.le, max_eq_right (by norm_num : (0 : ℤ) ≤ 100)]
    · rw [if_neg (not_lt.mpr h1), min_eq_right h1]
      rcases lt_or_le (battery_percent bat st offText) 0 with h2 | h2
      · rw [if_pos h2, max_eq_left h2.le]
      · rw [if_neg (not_lt.mpr h2), max_eq_right h2]

/-- Claim C2, code evaluation at the failing input: a STATUS reply timestamped
before the channel watermark is integrated with its negative delta instead of
being skipped. On a channel with watermark 7200 and 100 Wh accumulated, a
sample of 1 A at time 3600 drops the accumulator to 72 Wh, while the watermark
and the stored current are updated as the claim says. -/
theorem c2_negative_delta_corrupts :
    (run_parse test_codec 0 default_battery st_skew
        ["PDU", "3600", "STATUS", "1", "1"]).accumulated_Wh 0 = 72 ∧
    (run_parse test_codec 0 default_battery st_skew
        ["PDU", "3600", "STATUS", "1", "1"]).last_update_time 0 = 3600 ∧
    (run_parse test_codec 0 default_battery st_skew
        ["PDU", "3600", "STATUS", "1", "1"]).current 0 = 1 ∧
    st_skew.accumulated_Wh 0 = 100 := by
  refine ⟨?_, ?_, ?_, ?_⟩ <;>
    simp [run_parse, parse_packet, ts_decoded, test_codec, digit_timestamp, parse_decimal,
      parse_decimal_body, str_isdigit, str_to_nat, digits_val, st_skew,
      initial_state, default_battery, Function.update] <;>
    norm_num

/-- Claim C3: a packet with fewer than three comma separated fields is dropped
with the too short warning and no state change, but decoding is not exception
free as the claim asserts: an EVENT packet without a fourth field raises an
index error, and a STATUS reply whose amps field does not parse as a float
raises a value error. -/
theorem c3_malformed_and_crashes :
    (∀ (cdc : Codec) (now : ℚ) (bat : Battery) (st : EngineState) (raw : String),
        (py_split raw).length < 3 →
        parse_telemetry cdc now bat st raw = Except.ok (st, [Warning.tmTooShort])) ∧
    parse_packet test_codec 0 default_battery initial_state ["GND", "100", "EVENT"] =
      Except.error PyError.indexError ∧
    parse_packet test_codec 0 default_battery initial_state
        ["PDU", "100", "STATUS", "1", "abc"] = Except.error PyError.valueError := by
  refine ⟨?_, ?_, ?_⟩
  · intro cdc now bat st raw h
    unfold parse_telemetry
    rcases hl : py_split raw with _ | ⟨a, _ | ⟨b, _ | ⟨c, tl⟩⟩⟩
    · rfl
    · rfl
    · rfl
    · rw [hl] at h
      simp only [List.length_cons] at h
      omega
  · simp [parse_packet, ts_decoded, test_codec, digit_timestamp, str_isdigit]
  · simp [parse_packet, ts_decoded, test_codec, digit_timestamp, parse_decimal,
      parse_decimal_body, str_isdigit, str_to_nat]

/-- Witness for claim C3 at the packet PDU comma bad: two fields give the too
short warning and leave the state unchanged. -/
theorem c3_witness :
    parse_telemetry test_codec 0 default_battery initial_state "PDU,bad" =
      Except.ok (initial_state, [Warning.tmTooShort]) :=
  c3_malformed_and_crashes.1 test_codec 0 default_battery initial_state "PDU,bad"
    (by decide)

/-- Claim C5, counterexample: a START_FLIGHT event arriving while already in
flight silently rewrites the heater watermark from 3600 to the packet time
7200, so state changes and no diagnostic is emitted, contrary to the claim. -/
theorem c5_counterexample :
    st_inflight.in_flight = true ∧
    (run_parse test_codec 0 default_battery st_inflight
        ["GND", "7200", "EVENT", "START_FLIGHT"]).last_update_time 6 = 7200 ∧
    st_inflight.last_update_time 6 = 3600 ∧
    run_warnings test_codec 0 default_battery st_inflight
        ["GND", "7200", "EVENT", "START_FLIGHT"] = [] := by
  refine ⟨rfl, ?_, ?_, ?_⟩ <;>
    simp [run_parse, run_warnings, parse_packet, ts_decoded, test_codec, digit_timestamp,
      str_isdigit, str_to_nat, st_inflight, initial_state, Function.update]

/-- Claim C5 (amended): the source validates no session transition. A
START_FLIGHT event always sets the in flight flag and rewrites the heater
watermark to the packet time with no diagnostic, even when already in flight;
an END_FLIGHT event received while idle with the heater disarmed is a silent
no op; no invalid transition diagnostic exists anywhere in the handler. -/
theorem c5_session_transitions (cdc : Codec) (now : ℚ) (bat : Battery)
    (st : EngineState) (src tss : String) (r : List String) (t : ℚ)
    (hsrc : src ≠ "PDU") (ht : cdc.parse_iso tss = some t) :
    (st.in_flight = true →
      run_parse cdc now bat st (src :: tss :: "EVENT" :: "START_FLIGHT" :: r) =
        { st with
            in_flight := true
            last_update_time := Function.update st.last_update_time 6 t } ∧
      run_warnings cdc now bat st (src :: tss :: "EVENT" :: "START_FLIGHT" :: r) = []) ∧
    (st.in_flight = false → st.last_update_time 6 = 0 →
      run_parse cdc now bat st (src :: tss :: "EVENT" :: "END_FLIGHT" :: r) = st ∧
      run_warnings cdc now bat st (src :: tss :: "EVENT" :: "END_FLIGHT" :: r) = []) := by
  constructor
  · intro _
    constructor <;> simp [run_parse, run_warnings, parse_packet, ts_decoded, hsrc, ht]
  · intro _ hlast
    constructor <;> simp [run_parse, run_warnings, parse_packet, ts_decoded, hsrc, ht, hlast]

/-- Witness for claim C5 applied at concrete inputs: restarting while in flight
rewrites the watermark to 7200, and ending while idle and disarmed is silent. -/
theorem c5_witness :
    (run_parse test_codec 0 default_battery st_inflight
        ["GND", "7200", "EVENT", "START_FLIGHT"] =
      { st_inflight with
          in_flight := true
          last_update_time := Function.update st_inflight.last_update_time 6 7200 }) ∧
    run_parse test_codec 0 default_battery initial_state
        ["GND", "100", "EVENT", "END_FLIGHT"] = initial_state := by
  constructor
  · exact ((c5_session_transitions test_codec 0 default_battery st_inflight "GND" "7200" []
      7200 (by decide)
      (by simp [test_codec, digit_timestamp, str_isdigit, str_to_nat])).1 rfl).1
  · exact ((c5_session_transitions test_codec 0 default_battery initial_state "GND" "100" []
      100 (by decide)
      (by simp [test_codec, digit_timestamp, str_isdigit, str_to_nat])).2 rfl rfl).1

/-- Claim C4: the END_FLIGHT event path conforms to the flight end contract
when in flight with an armed heater watermark at or before the end time: it
adds one final rectangle of heater energy, clears the watermark and goes idle.
The flight toggle path does not: evaluated at a concrete in flight state with
the watermark armed at 3600 and the toggle at 7200 it adds no energy and
rewrites the watermark to 7200 instead of clearing it, though it does go idle. -/
theorem c4_end_flight_paths :
    (∀ (cdc : Codec) (now : ℚ) (bat : Battery) (st : EngineState)
        (src tss : String) (r : List String) (t : ℚ),
      src ≠ "PDU" → cdc.parse_iso tss = some t →
      st.in_flight = true → 0 < st.last_update_time 6 → st.last_update_time 6 ≤ t →
      (run_parse cdc now bat st
          (src :: tss :: "EVENT" :: "END_FLIGHT" :: r)).accumulated_Wh 6 =
          st.accumulated_Wh 6 +
            bat.heaters_consumption * ((t - st.last_update_time 6) / 3600) *
              bat.nominal_voltage ∧
      (run_parse cdc now bat st
          (src :: tss :: "EVENT" :: "END_FLIGHT" :: r)).last_update_time 6 = 0 ∧
      (run_parse cdc now bat st
          (src :: tss :: "EVENT" :: "END_FLIGHT" :: r)).in_flight = false) ∧
    (flight_toggle 7200 st_inflight).accumulated_Wh 6 = st_inflight.accumulated_Wh 6 ∧
    (flight_toggle 7200 st_inflight).accumulated_Wh 6 ≠
      st_inflight.accumulated_Wh 6 +
        default_battery.heaters_consumption *
          ((7200 - st_inflight.last_update_time 6) / 3600) *
          default_battery.nominal_voltage ∧
    (flight_toggle 7200 st_inflight).last_update_time 6 = 7200 ∧
    (flight_toggle 7200 st_inflight).in_flight = false := by
  refine ⟨?_, ?_, ?_, ?_, ?_⟩
  · intro cdc now bat st src tss r t hsrc ht hfl harm hle
    rcases lt_or_eq_of_le hle with hlt | heq
    · refine ⟨?_, ?_, ?_⟩ <;>
        simp [run_parse, parse_packet, ts_decoded, hsrc, ht, harm, sub_pos.mpr hlt,
          Function.update_same]
    · refine ⟨?_, ?_, ?_⟩ <;>
        simp [run_parse, parse_packet, ts_decoded, hsrc, ht, harm, ← heq, Function.update_same]
  · simp [flight_toggle, st_inflight, initial_state, Function.update]
  · simp [flight_toggle, st_inflight, initial_state, default_battery, Function.update]
    norm_num
  · simp [flight_toggle, st_inflight, initial_state, Function.update]
  · simp [flight_toggle, st_inflight, initial_state, Function.update]

/-- Witness for claim C4 applied at a concrete END_FLIGHT event packet while in
flight with the heater armed at 3600 and the flight ending at 7200. -/
theorem c4_witness :
    (run_parse test_codec 0 default_battery st_inflight
        ["GND", "7200", "EVENT", "END_FLIGHT"]).accumulated_Wh 6 =
        st_inflight.accumulated_Wh 6 +
          default_battery.heaters_consumption *
            ((7200 - st_inflight.last_update_time 6) / 3600) *
            default_battery.nominal_voltage ∧
    (run_parse test_codec 0 default_battery st_inflight
        ["GND", "7200", "EVENT", "END_FLIGHT"]).last_update_time 6 = 0 ∧
    (run_parse test_codec 0 default_battery st_inflight
        ["GND", "7200", "EVENT", "END_FLIGHT"]).in_flight = false :=
  c4_end_flight_paths.1 test_codec 0 default_battery st_inflight "GND" "7200" [] 7200
    (by decide)
    (by simp [test_codec, digit_timestamp, str_isdigit, str_to_nat])
    rfl
    (by simp [st_inflight, initial_state, Function.update])
    (by simp [st_inflight, initial_state, Function.update]
        norm_num)

/-- Claim C1: on a channel whose watermark is unset and whose accumulator is
empty, two PDU STATUS replies carrying currents a1 at a positive time t1 and a2
at a later time t2 leave exactly the rectangle term of the second sample: the
first sample stores its current and watermark and adds no energy, the second
adds its current times the elapsed hours times the nominal voltage. -/
theorem c1_first_two_samples (cdc : Codec) (now1 now2 : ℚ) (bat : Battery)
    (st : EngineState) (k : ℕ) (sid t1s t2s a1s a2s : String)
    (r1 r2 : List String) (a1 a2 t1 t2 : ℚ)
    (hdig : str_isdigit sid = true) (hval : str_to_nat sid = k)
    (hk1 : 1 ≤ k) (hk6 : k ≤ 6)
    (ht1 : cdc.parse_iso t1s = some t1) (ht2 : cdc.parse_iso t2s = some t2)
    (ha1 : cdc.parse_float a1s = some a1) (ha2 : cdc.parse_float a2s = some a2)
    (hunset : st.last_update_time (k - 1) = 0)
    (hacc : st.accumulated_Wh (k - 1) = 0)
    (ht1pos : 0 < t1) (hlt : t1 < t2) :
    (run_parse cdc now1 bat st
        ("PDU" :: t1s :: "STATUS" :: sid :: a1s :: r1)).current (k - 1) = a1 ∧
    (run_parse cdc now1 bat st
        ("PDU" :: t1s :: "STATUS" :: sid :: a1s :: r1)).last_update_time (k - 1) = t1 ∧
    (run_parse cdc now1 bat st
        ("PDU" :: t1s :: "STATUS" :: sid :: a1s :: r1)).accumulated_Wh (k - 1) = 0 ∧
    (run_parse cdc now2 bat
        (run_parse cdc now1 bat st ("PDU" :: t1s :: "STATUS" :: sid :: a1s :: r1))
        ("PDU" :: t2s :: "STATUS" :: sid :: a2s :: r2)).accumulated_Wh (k - 1) =
      a2 * (t2 - t1) / 3600 * bat.nominal_voltage := by
  subst hval
  have hst1 : run_parse cdc now1 bat st ("PDU" :: t1s :: "STATUS" :: sid :: a1s :: r1) =
      { st with
          current := Function.update st.current (str_to_nat sid - 1) a1
          last_update_time := Function.update st.last_update_time (str_to_nat sid - 1) t1 } := by
    simp [run_parse, parse_packet, ts_decoded, hdig, hk1, hk6, ht1, ha1, hunset]
  refine ⟨?_, ?_, ?_, ?_⟩
  · rw [hst1]
    simp
  · rw [hst1]
    simp
  · rw [hst1]
    simpa using hacc
  · rw [hst1]
    simp [run_parse, parse_packet, ts_decoded, hdig, hk1, hk6, ht2, ha2, ht1pos, hacc]
    exact Or.inl (by ring)

/-- Witness for claim C1 at channel 1 starting from the initial state, with a
sample of 3 A at time 3600 and a sample of 2 A at time 7200. -/
theorem c1_witness :
    (run_parse test_codec 0 default_battery initial_state
        ["PDU", "3600", "STATUS", "1", "3"]).current 0 = 3 ∧
    (run_parse test_codec 0 default_battery initial_state
        ["PDU", "3600", "STATUS", "1", "3"]).last_update_time 0 = 3600 ∧
    (run_parse test_codec 0 default_battery initial_state
        ["PDU", "3600", "STATUS", "1", "3"]).accumulated_Wh 0 = 0 ∧
    (run_parse test_codec 0 default_battery
        (run_parse test_codec 0 default_battery initial_state
          ["PDU", "3600", "STATUS", "1", "3"])
        ["PDU", "7200", "STATUS", "1", "2"]).accumulated_Wh 0 =
      2 * (7200 - 3600) / 3600 * default_battery.nominal_voltage :=
  c1_first_two_samples test_codec 0 0 default_battery initial_state 1 "1" "3600" "7200"
    "3" "2" [] [] 3 2 3600 7200
    (by decide) (by decide) (by decide) (by decide)
    (by simp [test_codec, digit_timestamp, str_isdigit, str_to_nat])
    (by simp [test_codec, digit_timestamp, str_isdigit, str_to_nat])
    (by simp [test_codec, parse_decimal, parse_decimal_body, digits_val])
    (by simp [test_codec, parse_decimal, parse_decimal_body, digits_val])
    rfl rfl (by norm_num) (by norm_num)

/-- Claim C6: a SRVCSET or STATUS reply whose channel id field is not a digit
string or falls outside 1 to 6 is rejected with a warning and mutates nothing:
the resulting state is the input state unchanged. -/
theorem c6_bad_channel_id (cdc : Codec) (now : ℚ) (bat : Battery)
    (st : EngineState) (tss hdr sid : String) (rest : List String)
    (hhdr : hdr = "SRVCSET" ∨ hdr = "STATUS")
    (hbad : str_isdigit sid = false ∨ str_to_nat sid < 1 ∨ 6 < str_to_nat sid) :
    run_parse cdc now bat st ("PDU" :: tss :: hdr :: sid :: rest) = st ∧
    run_warnings cdc now bat st ("PDU" :: tss :: hdr :: sid :: rest) ≠ [] := by
  by_cases hd : str_isdigit sid = true
  · have hrange : ¬(1 ≤ str_to_nat sid ∧ str_to_nat sid ≤ 6) := by
      rcases hbad with hb | hb | hb
      · rw [hd] at hb
        cases hb
      · omega
      · omega
    rcases hhdr with rfl | rfl <;> rcases rest with _ | ⟨v, r⟩ <;>
      exact ⟨by simp [run_parse, parse_packet, ts_decoded, hd, hrange],
             by simp [run_warnings, parse_packet, ts_decoded, hd, hrange]⟩
  · rcases hhdr with rfl | rfl <;> rcases rest with _ | ⟨v, r⟩ <;>
      exact ⟨by simp [run_parse, parse_packet, ts_decoded, hd],
             by simp [run_warnings, parse_packet, ts_decoded, hd]⟩

/-- Witness for claim C6 at a STATUS reply for the out of range channel id 7. -/
theorem c6_witness :
    run_parse test_codec 0 default_battery initial_state
        ["PDU", "100", "STATUS", "7", "0.5"] = initial_state ∧
    run_warnings test_codec 0 default_battery initial_state
        ["PDU", "100", "STATUS", "7", "0.5"] ≠ [] :=
  c6_bad_channel_id test_codec 0 default_battery initial_state "100" "STATUS" "7" ["0.5"]
    (Or.inr rfl) (Or.inr (Or.inr (by decide)))

/-- Claim C8: a packet whose source field is not PDU leaves every channel field
untouched in every outcome, and can change the state at all only when it is an
EVENT message whose fourth field is START_FLIGHT or END_FLIGHT. -/
theorem c8_non_pdu_frame (cdc : Codec) (now : ℚ) (bat : Battery)
    (st : EngineState) (packet : List String)
    (hsrc : packet.head? ≠ some "PDU") :
    channels_unchanged st (run_parse cdc now bat st packet) ∧
    (run_parse cdc now bat st packet ≠ st →
      packet.get? 2 = some "EVENT" ∧
        (packet.get? 3 = some "START_FLIGHT" ∨ packet.get? 3 = some "END_FLIGHT")) := by
  have hself : channels_unchanged st st := ⟨rfl, rfl, fun i _ => ⟨rfl, rfl⟩⟩
  rcases packet with _ | ⟨a, _ | ⟨b, _ | ⟨c, rest⟩⟩⟩
  · exact ⟨hself, fun h => absurd rfl h⟩
  · exact ⟨hself, fun h => absurd rfl h⟩
  · exact ⟨hself, fun h => absurd rfl h⟩
  · have ha : a ≠ "PDU" := by simpa using hsrc
    by_cases hc : c = "EVENT"
    · subst hc
      rcases rest with _ | ⟨arg, r⟩
      · have hrun : run_parse cdc now bat st (a :: b :: "EVENT" :: []) = st := by
          simp [run_parse, parse_packet, ts_decoded, ha]
        refine ⟨?_, fun h => absurd hrun h⟩
        rw [hrun]
        exact hself
      · by_cases h1 : arg = "START_FLIGHT"
        · subst h1
          have hrun : run_parse cdc now bat st (a :: b :: "EVENT" :: "START_FLIGHT" :: r) =
              { st with
                  in_flight := true
                  last_update_time :=
                    Function.update st.last_update_time 6 (ts_decoded cdc now b).1 } := by
            simp [run_parse, parse_packet, ha]
          refine ⟨?_, fun _ => ⟨rfl, Or.inl rfl⟩⟩
          rw [hrun]
          exact ⟨rfl, rfl, fun i hi =>
            ⟨(Function.update_noteq (by omega) _ _).symm, rfl⟩⟩
        · by_cases h2 : arg = "END_FLIGHT" ∧ 0 < st.last_update_time 6
          · obtain ⟨rfl, hpos⟩ := h2
            have hrun : run_parse cdc now bat st (a :: b :: "EVENT" :: "END_FLIGHT" :: r) =
                { st with
                    in_flight := false
                    accumulated_Wh := Function.update st.accumulated_Wh 6
                      (if 0 < (ts_decoded cdc now b).1 - st.last_update_time 6 then
                        st.accumulated_Wh 6 +
                          bat.heaters_consumption *
                            (((ts_decoded cdc now b).1 - st.last_update_time 6) / 3600) *
                            bat.nominal_voltage
                      else st.accumulated_Wh 6)
                    last_update_time := Function.update st.last_update_time 6 0 } := by
              simp [run_parse, parse_packet, ha, h1, hpos]
            refine ⟨?_, fun _ => ⟨rfl, Or.inr rfl⟩⟩
            rw [hrun]
            exact ⟨rfl, rfl, fun i hi =>
              ⟨(Function.update_noteq (by omega) _ _).symm,
               (Function.update_noteq (by omega) _ _).symm⟩⟩
          · have hrun : run_parse cdc now bat st (a :: b :: "EVENT" :: arg :: r) = st := by
              simp [run_parse, parse_packet, ts_decoded, ha, h1, h2]
            refine ⟨?_, fun h => absurd hrun h⟩
            rw [hrun]
            exact hself
    · have hrun : run_parse cdc now bat st (a :: b :: c :: rest) = st := by
        simp [run_parse, parse_packet, ts_decoded, ha, hc]
      refine ⟨?_, fun h => absurd hrun h⟩
      rw [hrun]
      exact hself

/-- Witness for claim C8 at a ground EVENT packet and at an inert ground IPSET
packet: channel state is untouched by both. -/
theorem c8_witness :
    channels_unchanged initial_state
      (run_parse test_codec 0 default_battery initial_state
        ["GND", "100", "EVENT", "START_FLIGHT"]) ∧
    channels_unchanged initial_state
      (run_parse test_codec 0 default_battery initial_state ["GND", "100", "IPSET"]) :=
  ⟨(c8_non_pdu_frame test_codec 0 default_battery initial_state
      ["GND", "100", "EVENT", "START_FLIGHT"] (by decide)).1,
   (c8_non_pdu_frame test_codec 0 default_battery initial_state
      ["GND", "100", "IPSET"] (by decide)).1⟩

/-- Claim C10: a PDU STATUS reply with a valid channel id stores the decoded
amps value unchecked as the channel current, and when a prior watermark exists
the value is integrated as is; at a concrete negative sample of minus half an
amp over a positive interval the accumulator strictly decreases. -/
theorem c10_negative_amps :
    (∀ (cdc : Codec) (now : ℚ) (bat : Battery) (st : EngineState) (k : ℕ)
        (sid tss vs : String) (r : List String) (amps t : ℚ),
      str_isdigit sid = true → str_to_nat sid = k → 1 ≤ k → k ≤ 6 →
      cdc.parse_iso tss = some t → cdc.parse_float vs = some amps →
      (run_parse cdc now bat st
          ("PDU" :: tss :: "STATUS" :: sid :: vs :: r)).current (k - 1) = amps ∧
      (0 < st.last_update_time (k - 1) →
        (run_parse cdc now bat st
            ("PDU" :: tss :: "STATUS" :: sid :: vs :: r)).accumulated_Wh (k - 1) =
          st.accumulated_Wh (k - 1) +
            amps * ((t - st.last_update_time (k - 1)) / 3600) * bat.nominal_voltage)) ∧
    (run_parse test_codec 0 default_battery st_sampled
        ["PDU", "7200", "STATUS", "2", "-0.5"]).accumulated_Wh 1 <
      st_sampled.accumulated_Wh 1 := by
  constructor
  · intro cdc now bat st k sid tss vs r amps t hdig hval hk1 hk6 ht ha
    subst hval
    by_cases hg : 0 < st.last_update_time (str_to_nat sid - 1)
    · constructor
      · simp [run_parse, parse_packet, ts_decoded, hdig, hk1, hk6, ht, ha, hg]
      · intro _
        simp [run_parse, parse_packet, ts_decoded, hdig, hk1, hk6, ht, ha, hg]
    · constructor
      · simp [run_parse, parse_packet, ts_decoded, hdig, hk1, hk6, ht, ha, hg]
      · intro hcontra
        exact absurd hcontra hg
  · simp [run_parse, parse_packet, ts_decoded, test_codec, digit_timestamp, parse_decimal,
      parse_decimal_body, str_isdigit, str_to_nat, digits_val, st_sampled,
      initial_state, default_battery, Function.update]
    norm_num

/-- Witness for claim C10 applied at the concrete negative sample: the stored
current is minus one half and the accumulator receives the signed rectangle. -/
theorem c10_witness :
    (run_parse test_codec 0 default_battery st_sampled
        ["PDU", "7200", "STATUS", "2", "-0.5"]).current 1 = -(1 / 2) ∧
    (run_parse test_codec 0 default_battery st_sampled
        ["PDU", "7200", "STATUS", "2", "-0.5"]).accumulated_Wh 1 =
      st_sampled.accumulated_Wh 1 +
        -(1 / 2) * ((7200 - st_sampled.last_update_time 1) / 3600) *
          default_battery.nominal_voltage := by
  have h := c10_negative_amps.1 test_codec 0 default_battery st_sampled 2 "2" "7200"
    "-0.5" [] (-(1 / 2)) 7200
    (by decide) (by decide) (by norm_num) (by norm_num)
    (by simp [test_codec, digit_timestamp, str_isdigit, str_to_nat])
    (by simp [test_codec, parse_decimal, parse_decimal_body, digits_val]
        norm_num)
  exact ⟨h.1, h.2 (by simp [st_sampled, initial_state, Function.update])⟩
